import Mathlib

/-!
Verification of the keyswitch-tester actuation core.

This file is a shallow embedding, in Lean 4, of the actuation control loop of
the keyswitch life-cycle tester backend:

- `hal.py` / class `ActuatorModule`: the fail-safe state machine over the
  Dynamixel servos (`command_servo`, `set_safe_state`, `reset_safe_state`,
  `_setup_servo`), with hardware writes reified as an explicit write log and
  acknowledgement modelled by an oracle `HWIO`.
- `actuation_scheduler.py` / `actuation_scheduler`: one scheduler iteration,
  the per-station cycle (press / return / concurrent current measurement),
  verdict application and the failure-threshold auto-disable.
- `main.py` / `monitor_status`: the low-voltage cutoff branch, including the
  enum-versus-string comparison that guards it.

Python floats are modelled as rationals (the comparisons the claims are about
agree on the float values involved); database reads that can return `None`
are modelled as `Option`; SDK calls that return `(result, error)` pairs are
modelled by the oracle answering acknowledged / not-acknowledged.  The
`try/except` wrappers whose only effect is logging are not modelled.
-/

namespace KeyswitchTester

/-- `MachineStateEnum` from `models.py`: `on`, `off`, `disabled`. -/
inductive MachineStateEnum
  | on
  | off
  | disabled
deriving DecidableEq, Repr

/-- A database read of `SystemState.machine_state` may find no row; every
check in the source is written `not system_state or system_state.machine_state
!= MachineStateEnum.on`, i.e. exactly `machineOn r = false`. -/
def machineOn : Option MachineStateEnum → Bool
  | some MachineStateEnum.on => true
  | _ => false

/-- `SystemSettings` row from `models.py` (the fields the core loop reads). -/
structure SystemSettings where
  cycles_per_minute : Nat
  cutoff_voltage : ℚ
  switch_current_threshold : ℚ
  switch_failure_threshold : Nat
deriving DecidableEq, Repr

/-- `Station` row from `models.py` (the fields the scheduler touches). -/
structure Station where
  id : Nat
  enabled : Bool
  current_cycles : Nat
  switch_failures : Nat
  switch_current : ℚ
deriving DecidableEq, Repr

/-! ## Hardware writes (`hal.py` Dynamixel control-table constants) -/

/-- One byte-level write to a servo's control table, as issued by
`ActuatorModule` through the Dynamixel packet handler. -/
inductive HWWrite
  | torqueEnable (servo : Nat) (val : Nat)
  | operatingMode (servo : Nat) (mode : Nat)
  | goalCurrent (servo : Nat) (limit : ℤ)
  | goalPosition (servo : Nat) (pos : ℤ)
deriving DecidableEq, Repr

/-- Acknowledgement oracle: `io w = true` models the SDK call for write `w`
returning `COMM_SUCCESS` with a zero error byte. -/
abbrev HWIO := HWWrite → Bool

/-- `POSITION_RESOLUTION = 4096` (XM430, positions 0-4095). -/
def POSITION_RESOLUTION : Nat := 4096

/-- `CURRENT_BASED_MODE = 5`. -/
def CURRENT_BASED_MODE : Nat := 5

/-- Python `int(...)` on a rational value: truncation toward zero. -/
def int_trunc (q : ℚ) : ℤ := q.num.tdiv (q.den : ℤ)

/-! ## `ActuatorModule` (`hal.py` lines 162-371) -/

/-- Mutable state of `ActuatorModule`: the connection flag and the
safe-state flag, plus the two configuration constants read from
`hardware_config.json`. -/
structure ActuatorModule where
  connected : Bool
  safe_state_reached : Bool
  default_target_angle : ℚ
  current_limit_percent : ℚ
deriving DecidableEq, Repr

/-- `self.servo_ids = {1: 1, 2: 2, 3: 3, 4: 4}` as an association list. -/
def servo_ids : List (Nat × Nat) := [(1, 1), (2, 2), (3, 3), (4, 4)]

/-- The servo ids iterated over by `self.servo_ids.values()`. -/
def servoIdList : List Nat := servo_ids.map (fun p => p.2)

/-- `self.servo_ids.get(station_id)`. -/
def lookupServo (station_id : Nat) : Option Nat :=
  (servo_ids.find? (fun p => p.1 == station_id)).map (fun p => p.2)

/-- `_degrees_to_position`: scale degrees (0-360) to position (0-4095),
truncating like Python `int`, then clamp with `max(0, min(4095, position))`. -/
def degrees_to_position (degrees : ℚ) : ℤ :=
  let position := int_trunc (degrees * (POSITION_RESOLUTION : ℚ) / 360)
  max 0 (min ((POSITION_RESOLUTION : ℤ) - 1) position)

/-- `_calculate_current_limit`: `int((percent * 1193) / 100.0)`. -/
def calculate_current_limit (percent : ℚ) : ℤ :=
  int_trunc (percent * 1193 / 100)

/-- `_setup_servo` (`hal.py` lines 190-227): disable torque, set
current-based position mode, set the current limit, re-enable torque;
each write aborts the setup on a failed acknowledgement.  Returns the
success flag and the writes that were issued. -/
def setup_servo (io : HWIO) (current_limit_percent : ℚ) (servo_id : Nat) :
    Bool × List HWWrite :=
  let w1 := HWWrite.torqueEnable servo_id 0
  if !io w1 then (false, [w1]) else
  let w2 := HWWrite.operatingMode servo_id CURRENT_BASED_MODE
  if !io w2 then (false, [w1, w2]) else
  let w3 := HWWrite.goalCurrent servo_id (calculate_current_limit current_limit_percent)
  if !io w3 then (false, [w1, w2, w3]) else
  let w4 := HWWrite.torqueEnable servo_id 1
  if !io w4 then (false, [w1, w2, w3, w4]) else
  (true, [w1, w2, w3, w4])

/-- Result of a safe-state transition call on `ActuatorModule`: the updated
module, the returned boolean, and the hardware writes issued. -/
structure ActResult where
  module : ActuatorModule
  ok : Bool
  writes : List HWWrite
deriving DecidableEq, Repr

/-- `command_servo` (`hal.py` lines 280-311): refuse (no write) when the safe
state is active or the controller is disconnected or the station is unmapped;
otherwise write the goal position and report the acknowledgement. -/
def command_servo (io : HWIO) (m : ActuatorModule) (station_id : Nat)
    (target_angle : Option ℚ) : Bool × List HWWrite :=
  if m.safe_state_reached then (false, [])
  else if !m.connected then (false, [])
  else
    match lookupServo station_id with
    | none => (false, [])
    | some servo_id =>
      let angle := target_angle.getD m.default_target_angle
      let w := HWWrite.goalPosition servo_id (degrees_to_position angle)
      if io w then (true, [w]) else (false, [w])

/-- `set_safe_state` (`hal.py` lines 313-346): fail if disconnected; succeed
with no writes if the safe state is already reached; otherwise sweep every
servo to goal position 0, wait, sweep torque off — individual write failures
are logged and skipped (`continue`), the sweep is best-effort — then set
`safe_state_reached` and return success. -/
def set_safe_state (io : HWIO) (m : ActuatorModule) : ActResult :=
  if !m.connected then ⟨m, false, []⟩
  else if m.safe_state_reached then ⟨m, true, []⟩
  else
    let moveWrites := servoIdList.map (fun sid => HWWrite.goalPosition sid 0)
    let torqueWrites := servoIdList.map (fun sid => HWWrite.torqueEnable sid 0)
    ⟨{ m with safe_state_reached := true }, true, moveWrites ++ torqueWrites⟩

/-- `reset_safe_state`'s per-servo loop body (`hal.py` lines 355-359):
run `_setup_servo` on each servo in order, stopping at the first failure. -/
def setup_all (io : HWIO) (percent : ℚ) : List Nat → Bool × List HWWrite
  | [] => (true, [])
  | sid :: rest =>
    let r := setup_servo io percent sid
    if !r.1 then (false, r.2)
    else
      let rr := setup_all io percent rest
      (rr.1, r.2 ++ rr.2)

/-- `reset_safe_state` (`hal.py` lines 348-371): fail if disconnected;
re-run the full per-servo setup for every servo, aborting at the first
failure; clear `safe_state_reached` and succeed only when every setup
succeeded, otherwise leave the module untouched and fail. -/
def reset_safe_state (io : HWIO) (m : ActuatorModule) : ActResult :=
  if !m.connected then ⟨m, false, []⟩
  else
    let r := setup_all io m.current_limit_percent servoIdList
    if r.1 then ⟨{ m with safe_state_reached := false }, true, r.2⟩
    else ⟨m, false, r.2⟩

/-! ## Current measurement (`actuation_scheduler.py` lines 82-97) -/

/-- One pass of the `measure_current` loop body observes a machine-state read
(the `SystemState` row, possibly absent) and the optional `switch_current`
entry of `get_sensor_data()`. -/
structure Sample where
  machine : Option MachineStateEnum
  reading : Option ℚ
deriving DecidableEq, Repr

/-- The `measure_current` while-loop: on each sample, return `False` early if
the machine state is not `on`; otherwise raise the running peak when the
sample strictly exceeds it, and return `True` once the cycle duration is
exhausted (the sample list is the environment's readings over that window). -/
def measure_current_loop : List Sample → ℚ → Bool × ℚ
  | [], peak => (true, peak)
  | s :: rest, peak =>
    if !machineOn s.machine then (false, peak)
    else
      let peak' := match s.reading with
        | some v => if v > peak then v else peak
        | none => peak
      measure_current_loop rest peak'

/-- `measure_current` starts from `peak_current = 0.0`. -/
def measure_current (samples : List Sample) : Bool × ℚ :=
  measure_current_loop samples 0

/-- The current values actually observed by the measurement loop (samples
carrying a `switch_current` entry). -/
def observed_currents (samples : List Sample) : List ℚ :=
  samples.filterMap (fun s => s.reading)

/-! ## The per-station cycle (`actuation_scheduler.py` lines 65-150) -/

/-- Environment of one station's pass through the scheduler's for-loop: the
machine-state read before starting the station, the measurement task's
samples, the machine-state read after the press movement, and the
machine-state reads taken every 100 ms during the inter-cycle wait. -/
structure StationInput where
  machineAtStart : Option MachineStateEnum
  samples : List Sample
  machineAfterPress : Option MachineStateEnum
  waitChecks : List (Option MachineStateEnum)
deriving Repr

/-- Scheduler-level events of one station pass, in program order. -/
inductive CycleEvent
  | spawnMeasurement
  | servoCommand (station_id : Nat) (angle : ℚ)
  | joinMeasurement
  | safeStateCall
  | verdictApplied (station_id : Nat)
deriving DecidableEq, Repr

/-- The completed-cycle update (`actuation_scheduler.py` lines 123-135):
store the peak, bump `switch_failures` when the peak is below the threshold,
bump `current_cycles` unconditionally, and auto-disable once
`switch_failures` reaches the failure threshold. -/
def update_station (settings : SystemSettings) (st : Station) (peak : ℚ) :
    Station :=
  let st1 := { st with switch_current := peak }
  let st2 := if peak < settings.switch_current_threshold
             then { st1 with switch_failures := st1.switch_failures + 1 }
             else st1
  let st3 := { st2 with current_cycles := st2.current_cycles + 1 }
  if settings.switch_failure_threshold ≤ st3.switch_failures
  then { st3 with enabled := false }
  else st3

/-- Result of one station pass: the actuator state after any safe-state
calls, the station row as committed, whether the pass `break`s out of the
station loop, and the trace of scheduler-level events. -/
structure CycleResult where
  actuator : ActuatorModule
  station : Station
  breakLoop : Bool
  events : List CycleEvent
deriving Repr

/-- One station's pass through the scheduler loop body
(`actuation_scheduler.py` lines 65-150).  Faithful control flow:

* machine not `on` before starting → `set_safe_state`, `break` (no spawn);
* spawn the measurement task, command the press angle (100°), sleep;
* machine not `on` after the press → `set_safe_state`, `break` — the
  measurement task is left in flight, it is not awaited on this path;
* command the return angle (0°), sleep, await the measurement task;
* measurement returned `False` → `set_safe_state`, `break`;
* otherwise apply the verdict to the station row and commit, then sit out
  the inter-cycle wait, calling `set_safe_state` (and ending the wait) if a
  100 ms machine-state check fails; this last `break` leaves only the wait
  loop, not the station loop. -/
def run_station_cycle (io : HWIO) (settings : SystemSettings)
    (act : ActuatorModule) (st : Station) (inp : StationInput) : CycleResult :=
  if !machineOn inp.machineAtStart then
    { actuator := (set_safe_state io act).module, station := st,
      breakLoop := true, events := [CycleEvent.safeStateCall] }
  else
    let meas := measure_current inp.samples
    let ev0 : List CycleEvent :=
      [CycleEvent.spawnMeasurement, CycleEvent.servoCommand st.id 100]
    if !machineOn inp.machineAfterPress then
      { actuator := (set_safe_state io act).module, station := st,
        breakLoop := true, events := ev0 ++ [CycleEvent.safeStateCall] }
    else
      let ev1 := ev0 ++ [CycleEvent.servoCommand st.id 0, CycleEvent.joinMeasurement]
      if !meas.1 then
        { actuator := (set_safe_state io act).module, station := st,
          breakLoop := true, events := ev1 ++ [CycleEvent.safeStateCall] }
      else
        let st' := update_station settings st meas.2
        let waitAbort := inp.waitChecks.any (fun r => !machineOn r)
        let act' := if waitAbort then (set_safe_state io act).module else act
        { actuator := act', station := st', breakLoop := false,
          events := ev1 ++ [CycleEvent.verdictApplied st.id] ++
            (if waitAbort then [CycleEvent.safeStateCall] else []) }

/-! ## One scheduler iteration (`actuation_scheduler.py` lines 24-156) -/

/-- Scheduler-visible state: the actuator module and the station table. -/
structure SchedState where
  actuator : ActuatorModule
  stations : List Station
deriving Repr

/-- Environment of one iteration of the scheduler's while-loop: the
`SystemSettings` row (possibly absent), the machine-state read at the top of
the iteration, and one `StationInput` per enabled station. -/
structure IterInput where
  settings : Option SystemSettings
  machineAtTop : Option MachineStateEnum
  stationInputs : List StationInput
deriving Repr

/-- `if not app.state.hal.actuator_module.safe_state_reached: await
app.state.hal.set_safe_state()`. -/
def enter_safe_if_needed (io : HWIO) (act : ActuatorModule) : ActuatorModule :=
  if act.safe_state_reached then act else (set_safe_state io act).module

/-- The for-loop over enabled stations, with its `break` semantics; returns
the actuator state and the committed station rows (aborted passes commit
nothing). -/
def run_stations (io : HWIO) (settings : SystemSettings) :
    ActuatorModule → List (Station × StationInput) → ActuatorModule × List Station
  | act, [] => (act, [])
  | act, (st, inp) :: rest =>
    let r := run_station_cycle io settings act st inp
    if r.breakLoop then (r.actuator, [])
    else
      let rr := run_stations io settings r.actuator rest
      (rr.1, r.station :: rr.2)

/-- Write the committed rows back into the station table by id. -/
def commit_stations (stations updated : List Station) : List Station :=
  stations.map (fun s => ((updated.find? (fun u => u.id == s.id)).getD s))

/-- One iteration of `actuation_scheduler`'s while-loop: missing settings →
sleep and retry; machine not `on` → safe state if not already reached;
no enabled stations → likewise; otherwise `reset_safe_state` if the safe
state is active, then run the enabled stations in table order (each paired
with its environment input). -/
def scheduler_iteration (io : HWIO) (s : SchedState) (inp : IterInput) :
    SchedState :=
  match inp.settings with
  | none => s
  | some settings =>
    if !machineOn inp.machineAtTop then
      { s with actuator := enter_safe_if_needed io s.actuator }
    else
      let enabled := s.stations.filter (fun st => st.enabled)
      if enabled.isEmpty then
        { s with actuator := enter_safe_if_needed io s.actuator }
      else
        let act0 := if s.actuator.safe_state_reached
                    then (reset_safe_state io s.actuator).module
                    else s.actuator
        let r := run_stations io settings act0 (enabled.zip inp.stationInputs)
        { actuator := r.1, stations := commit_stations s.stations r.2 }

/-- A run of the scheduler over a sequence of iteration environments. -/
def scheduler_run (io : HWIO) (s : SchedState) (inps : List IterInput) :
    SchedState :=
  inps.foldl (scheduler_iteration io) s

/-! ## The low-voltage debounce (`main.py` lines 355-382, `monitor_status`) -/

/-- The state touched by `monitor_status`'s supply-voltage branch: the
machine state, the module-level `voltage_monitor['low_voltage_start']`
timestamp, and the stored supply voltage. -/
structure MonitorState where
  machine_state : MachineStateEnum
  low_voltage_start : Option ℚ
  supply_voltage : ℚ
deriving DecidableEq, Repr

/-- The comparison `system_state.machine_state == "on"` guarding the
low-voltage branch: `MachineStateEnum` (models.py) is a plain `enum.Enum`,
not a `str` mixin, and `monitor_status` reads the row through SQLAlchemy as
an enum member, so equality of the member with the string is always
`False` in Python. -/
def machine_state_str_eq_on (_ : MachineStateEnum) : Bool := false

/-- One `supply_voltage` reading processed by `monitor_status` at time `now`:
store the reading; if `machine_state == "on"` (the always-false string
comparison above) and the reading is below the cutoff, start the low-voltage
timer when unset, and force the machine off (resetting the timer) once
`now - start ≥ 5`; any other case resets the timer to unset.  The
then-branch transcribes the source's intent but is unreachable under the
faithful guard; its machine-off assignment is likewise the source's
`machine_state = "off"`. -/
def voltage_check_step (cutoff : ℚ) (s : MonitorState) (now reading : ℚ) :
    MonitorState :=
  let s1 := { s with supply_voltage := reading }
  if machine_state_str_eq_on s1.machine_state ∧ reading < cutoff then
    match s1.low_voltage_start with
    | none => { s1 with low_voltage_start := some now }
    | some t0 =>
      if 5 ≤ now - t0 then
        { s1 with machine_state := MachineStateEnum.off, low_voltage_start := none }
      else s1
  else
    { s1 with low_voltage_start := none }

/-- Processing a sequence of timed readings `(now, reading)`. -/
def monitor_run (cutoff : ℚ) (s : MonitorState) (l : List (ℚ × ℚ)) :
    MonitorState :=
  l.foldl (fun s p => voltage_check_step cutoff s p.1 p.2) s

/-! ## Example values used to instantiate theorems on concrete inputs -/

/-- Oracle under which every hardware write is acknowledged. -/
def ioAll : HWIO := fun _ => true

/-- Oracle under which every hardware write fails. -/
def ioNone : HWIO := fun _ => false

/-- A connected, armed module (config defaults: angle 100°, 50 % limit). -/
def exArmed : ActuatorModule := ⟨true, false, 100, 50⟩

/-- A connected module with the safe state reached. -/
def exSafe : ActuatorModule := ⟨true, true, 100, 50⟩

/-- A disconnected module. -/
def exDisconnected : ActuatorModule := ⟨false, false, 100, 50⟩

/-- Settings with the database defaults relevant to the loop. -/
def exSettings : SystemSettings := ⟨6, 111/10, 5, 10⟩

/-- An enabled station with fresh counters. -/
def exStation : Station := ⟨1, true, 0, 0, 0⟩

/-- A station pass in which every machine-state check reads `on` and the
single current sample is 6 A. -/
def exGoodInput : StationInput :=
  ⟨some MachineStateEnum.on, [⟨some MachineStateEnum.on, some 6⟩],
   some MachineStateEnum.on, []⟩

/-! ## Helper lemmas -/

theorem set_safe_state_connected (io : HWIO) (m : ActuatorModule) :
    (set_safe_state io m).module.connected = m.connected := by
  unfold set_safe_state
  cases hc : m.connected <;> cases hs : m.safe_state_reached <;> simp [hc, hs]

theorem set_safe_state_flag (io : HWIO) (m : ActuatorModule)
    (h : m.connected = true) :
    (set_safe_state io m).module.safe_state_reached = true := by
  unfold set_safe_state
  cases hs : m.safe_state_reached <;> simp [h, hs]

theorem reset_safe_state_connected (io : HWIO) (m : ActuatorModule) :
    (reset_safe_state io m).module.connected = m.connected := by
  unfold reset_safe_state
  cases hc : m.connected <;>
    cases hr : (setup_all io m.current_limit_percent servoIdList).1 <;>
    simp [hc, hr]

theorem setup_all_ok_iff (io : HWIO) (p : ℚ) (l : List Nat) :
    (setup_all io p l).1 = true ↔
      ∀ sid ∈ l, (setup_servo io p sid).1 = true := by
  induction l with
  | nil => simp [setup_all]
  | cons sid rest ih =>
    cases h : (setup_servo io p sid).1 <;> simp [setup_all, h, ih]

/-! ## Claim C7 -/

/-- Claim C7: every call to `command_servo` made while the module is in the
safe state or not connected fails immediately (returns `False`) and performs
no hardware write. -/
theorem c7_command_servo_fails_closed (io : HWIO) (m : ActuatorModule)
    (station_id : Nat) (target_angle : Option ℚ)
    (h : m.safe_state_reached = true ∨ m.connected = false) :
    (command_servo io m station_id target_angle).1 = false ∧
    (command_servo io m station_id target_angle).2 = [] := by
  unfold command_servo
  rcases h with h | h
  · simp [h]
  · cases hs : m.safe_state_reached <;> simp [h, hs]

/-- Witness for C7: a connected module with the safe state active refuses a
command for station 1 without writing. -/
theorem c7_witness :
    (command_servo ioAll exSafe 1 (some 100)).1 = false ∧
    (command_servo ioAll exSafe 1 (some 100)).2 = [] :=
  c7_command_servo_fails_closed ioAll exSafe 1 (some 100) (Or.inl rfl)

/-! ## Claim C10 -/

/-- Claim C10: while the module is not connected, `set_safe_state` and
`reset_safe_state` both return failure, perform no hardware write, and leave
the whole module state (in particular `safe_state_reached`) unchanged. -/
theorem c10_disconnected_no_op (io : HWIO) (m : ActuatorModule)
    (h : m.connected = false) :
    (set_safe_state io m).ok = false ∧
    (set_safe_state io m).writes = [] ∧
    (set_safe_state io m).module = m ∧
    (reset_safe_state io m).ok = false ∧
    (reset_safe_state io m).writes = [] ∧
    (reset_safe_state io m).module = m := by
  unfold set_safe_state reset_safe_state
  simp [h]

/-- Witness for C10 on a concrete disconnected module. -/
theorem c10_witness :
    (set_safe_state ioAll exDisconnected).ok = false ∧
    (set_safe_state ioAll exDisconnected).writes = [] ∧
    (set_safe_state ioAll exDisconnected).module = exDisconnected ∧
    (reset_safe_state ioAll exDisconnected).ok = false ∧
    (reset_safe_state ioAll exDisconnected).writes = [] ∧
    (reset_safe_state ioAll exDisconnected).module = exDisconnected :=
  c10_disconnected_no_op ioAll exDisconnected rfl

/-! ## Claim C6 -/

/-- Claim C6: `set_safe_state` is idempotent.  On a connected module that is
already in the safe state it returns success with zero hardware writes; in
particular a second consecutive call after any successful first call (under
any oracle) succeeds and performs zero hardware writes. -/
theorem c6_set_safe_state_idempotent (io io2 : HWIO) (m : ActuatorModule) :
    (m.connected = true → m.safe_state_reached = true →
      (set_safe_state io m).ok = true ∧ (set_safe_state io m).writes = []) ∧
    ((set_safe_state io m).ok = true →
      (set_safe_state io2 (set_safe_state io m).module).ok = true ∧
      (set_safe_state io2 (set_safe_state io m).module).writes = []) := by
  constructor
  · intro hc hs
    unfold set_safe_state
    simp [hc, hs]
  · intro hok
    unfold set_safe_state at hok ⊢
    cases hc : m.connected <;> cases hs : m.safe_state_reached <;>
      simp [hc, hs] at hok ⊢

/-- Witness for C6: the second call after a successful call on a concrete
armed module writes nothing and succeeds. -/
theorem c6_witness :
    (set_safe_state ioAll (set_safe_state ioAll exArmed).module).ok = true ∧
    (set_safe_state ioAll (set_safe_state ioAll exArmed).module).writes = [] :=
  (c6_set_safe_state_idempotent ioAll ioAll exArmed).2 (by decide)

/-! ## Claim C5 -/

/-- Claim C5: on a connected module in the safe state, if any one servo's
setup fails then `reset_safe_state` leaves `safe_state_reached` true and
returns failure; the armed state (`safe_state_reached = false`) is reached
only when the per-servo setup succeeds for every servo. -/
theorem c5_reset_safe_state_all_or_nothing (io : HWIO) (m : ActuatorModule)
    (hc : m.connected = true) (hs : m.safe_state_reached = true) :
    ((∃ sid ∈ servoIdList, (setup_servo io m.current_limit_percent sid).1 = false) →
      (reset_safe_state io m).module.safe_state_reached = true ∧
      (reset_safe_state io m).ok = false) ∧
    ((reset_safe_state io m).module.safe_state_reached = false →
      ∀ sid ∈ servoIdList, (setup_servo io m.current_limit_percent sid).1 = true) := by
  unfold reset_safe_state
  cases hr : (setup_all io m.current_limit_percent servoIdList).1
  · simp [hc, hr, hs]
  · have hall := (setup_all_ok_iff io m.current_limit_percent servoIdList).mp hr
    constructor
    · rintro ⟨sid, hmem, hfail⟩
      exact absurd (hall sid hmem) (by simp [hfail])
    · intro _
      exact hall

/-- Witness for C5: under the all-failing oracle, servo 1's setup fails and a
concrete safe module stays safe with the call failing. -/
theorem c5_witness :
    (reset_safe_state ioNone exSafe).module.safe_state_reached = true ∧
    (reset_safe_state ioNone exSafe).ok = false :=
  (c5_reset_safe_state_all_or_nothing ioNone exSafe rfl rfl).1
    ⟨1, by decide, by decide⟩

/-! ## Claim C3 -/

/-- Claim C3: for every completed (non-aborted) station cycle, with measured
peak current `p` and configured threshold `t`: `current_cycles` increases by
exactly 1 regardless of verdict, `switch_failures` increases by exactly 1
when `p < t`, and is unchanged when `t ≤ p` (a reading at or above the
threshold passes). -/
theorem c3_completed_cycle_counters (io : HWIO) (settings : SystemSettings)
    (act : ActuatorModule) (st : Station) (inp : StationInput)
    (h1 : machineOn inp.machineAtStart = true)
    (h2 : machineOn inp.machineAfterPress = true)
    (h3 : (measure_current inp.samples).1 = true) :
    (run_station_cycle io settings act st inp).station.current_cycles
        = st.current_cycles + 1 ∧
    ((measure_current inp.samples).2 < settings.switch_current_threshold →
      (run_station_cycle io settings act st inp).station.switch_failures
        = st.switch_failures + 1) ∧
    (settings.switch_current_threshold ≤ (measure_current inp.samples).2 →
      (run_station_cycle io settings act st inp).station.switch_failures
        = st.switch_failures) := by
  unfold run_station_cycle update_station
  simp [h1, h2, h3]
  refine ⟨?_, ?_, ?_⟩
  · split_ifs <;> simp
  · intro hlt
    split_ifs <;> simp_all
  · intro hge
    have hnot : ¬ (measure_current inp.samples).2 < settings.switch_current_threshold :=
      not_lt.mpr hge
    split_ifs <;> simp_all

/-- Witness for C3: a concrete completed cycle with peak 6 A against a 5 A
threshold bumps the cycle counter and leaves the failure counter alone. -/
theorem c3_witness :
    (run_station_cycle ioAll exSettings exArmed exStation exGoodInput).station.current_cycles
        = exStation.current_cycles + 1 ∧
    ((measure_current exGoodInput.samples).2 < exSettings.switch_current_threshold →
      (run_station_cycle ioAll exSettings exArmed exStation exGoodInput).station.switch_failures
        = exStation.switch_failures + 1) ∧
    (exSettings.switch_current_threshold ≤ (measure_current exGoodInput.samples).2 →
      (run_station_cycle ioAll exSettings exArmed exStation exGoodInput).station.switch_failures
        = exStation.switch_failures) :=
  c3_completed_cycle_counters ioAll exSettings exArmed exStation exGoodInput
    (by decide) (by decide) (by decide)

/-! ## Claim C4 -/

/-- Claim C4: a station cycle aborted by the safety interlock at any point
(before motion, mid-press, or during measurement) leaves the station row
completely unchanged — in particular `current_cycles`, `switch_failures`,
`switch_current` and `enabled` — and the scheduler calls the safe-state
transition on that pass. -/
theorem c4_abort_preserves_station (io : HWIO) (settings : SystemSettings)
    (act : ActuatorModule) (st : Station) (inp : StationInput)
    (h : machineOn inp.machineAtStart = false ∨
         machineOn inp.machineAfterPress = false ∨
         (measure_current inp.samples).1 = false) :
    (run_station_cycle io settings act st inp).station = st ∧
    CycleEvent.safeStateCall ∈ (run_station_cycle io settings act st inp).events := by
  unfold run_station_cycle
  cases h1 : machineOn inp.machineAtStart <;>
    cases h2 : machineOn inp.machineAfterPress <;>
    cases h3 : (measure_current inp.samples).1 <;>
    simp [h1, h2, h3] at h ⊢

/-- Witness for C4: the machine reads `off` before station 1 starts; the
station row is untouched and safe state is triggered. -/
theorem c4_witness :
    (run_station_cycle ioAll exSettings exArmed exStation
        ⟨some MachineStateEnum.off, [], some MachineStateEnum.on, []⟩).station
      = exStation ∧
    CycleEvent.safeStateCall ∈
      (run_station_cycle ioAll exSettings exArmed exStation
        ⟨some MachineStateEnum.off, [], some MachineStateEnum.on, []⟩).events :=
  c4_abort_preserves_station ioAll exSettings exArmed exStation
    ⟨some MachineStateEnum.off, [], some MachineStateEnum.on, []⟩
    (Or.inl (by decide))

/-! ## Claim C8 -/

/-- Claim C8 fails on the code: in a completed cycle whose only observed
sample is −1 A (all machine checks read `on`), the maximum of the observed
samples is −1, but the reported peak is the initial accumulator 0.0 — the
loop starts from `peak_current = 0.0` and only ever raises it, so an
all-negative sample sequence does not report its maximum. -/
theorem c8_counterexample :
    (measure_current [⟨some MachineStateEnum.on, some (-1)⟩]).1 = true ∧
    observed_currents [⟨some MachineStateEnum.on, some (-1)⟩] = [(-1 : ℚ)] ∧
    (measure_current [⟨some MachineStateEnum.on, some (-1)⟩]).2 = 0 ∧
    (measure_current [⟨some MachineStateEnum.on, some (-1)⟩]).2 ≠ (-1 : ℚ) := by
  decide

/-- Helper for C8: when every machine-state check during measurement reads
`on`, the measurement loop completes and folds `max` over the observed
samples starting from the accumulator it was given. -/
theorem measure_current_loop_all_on :
    ∀ (l : List Sample) (peak : ℚ), (∀ s ∈ l, machineOn s.machine = true) →
      measure_current_loop l peak = (true, (observed_currents l).foldl max peak) := by
  intro l
  induction l with
  | nil => intro peak _; simp [measure_current_loop, observed_currents]
  | cons s rest ih =>
    intro peak hl
    have hs : machineOn s.machine = true := hl s (List.mem_cons_self s rest)
    have hrest : ∀ x ∈ rest, machineOn x.machine = true :=
      fun x hx => hl x (List.mem_cons_of_mem s hx)
    cases hr : s.reading with
    | none =>
      simp [measure_current_loop, hs, hr, observed_currents, ih peak hrest]
    | some v =>
      have hmax : (if v > peak then v else peak) = max peak v := by
        rcases le_or_lt v peak with hle | hlt
        · simp [not_lt.mpr hle, max_eq_left hle]
        · simp [hlt, max_eq_right hlt.le]
      have hobs : observed_currents (s :: rest) = v :: observed_currents rest := by
        simp [observed_currents, hr]
      simp only [measure_current_loop, hs, Bool.not_true, Bool.false_eq_true,
        if_false, hr, hmax, hobs, List.foldl_cons]
      exact ih (max peak v) hrest

/-- Claim C8 as amended: in a completed cycle the reported peak current is
the maximum of 0.0 and all observed current samples (the fold of `max` over
the observed samples starting from the initial peak 0.0), so all-negative
sequences report 0.0. -/
theorem c8_amended_peak_is_fold_max (samples : List Sample)
    (h : ∀ s ∈ samples, machineOn s.machine = true) :
    (measure_current samples).1 = true ∧
    (measure_current samples).2 = (observed_currents samples).foldl max 0 := by
  have := measure_current_loop_all_on samples 0 h
  unfold measure_current
  rw [this]
  exact ⟨rfl, rfl⟩

/-- Witness for the amended C8 on a mixed concrete sample list. -/
theorem c8_amended_witness :
    (measure_current [⟨some MachineStateEnum.on, some 2⟩,
        ⟨some MachineStateEnum.on, none⟩,
        ⟨some MachineStateEnum.on, some 7⟩]).1 = true ∧
    (measure_current [⟨some MachineStateEnum.on, some 2⟩,
        ⟨some MachineStateEnum.on, none⟩,
        ⟨some MachineStateEnum.on, some 7⟩]).2
      = (observed_currents [⟨some MachineStateEnum.on, some 2⟩,
          ⟨some MachineStateEnum.on, none⟩,
          ⟨some MachineStateEnum.on, some 7⟩]).foldl max 0 :=
  c8_amended_peak_is_fold_max
    [⟨some MachineStateEnum.on, some 2⟩, ⟨some MachineStateEnum.on, none⟩,
     ⟨some MachineStateEnum.on, some 7⟩] (by decide)

/-! ## Claim C9 -/

/-- Claim C9 fails on the code: on the mid-press abort path (machine reads
`off` after the press movement), the scheduler breaks out and enters safe
state without awaiting the measurement task it spawned — the trace contains
the spawn but no join. -/
theorem c9_counterexample :
    CycleEvent.spawnMeasurement ∈
      (run_station_cycle ioAll exSettings exArmed exStation
        ⟨some MachineStateEnum.on, [], some MachineStateEnum.off, []⟩).events ∧
    CycleEvent.joinMeasurement ∉
      (run_station_cycle ioAll exSettings exArmed exStation
        ⟨some MachineStateEnum.on, [], some MachineStateEnum.off, []⟩).events := by
  decide

/-- Claim C9 as amended: whenever a verdict is applied, the measurement task
was joined before it (the verdict event sits strictly after the join event in
the trace), and on every path that passes the mid-press machine check the
task is joined; only the mid-press abort path ends the cycle with the spawned
task still in flight. -/
theorem c9_amended_join_before_verdict (io : HWIO) (settings : SystemSettings)
    (act : ActuatorModule) (st : Station) (inp : StationInput) :
    (CycleEvent.verdictApplied st.id ∈ (run_station_cycle io settings act st inp).events →
      ∃ l1 l2, (run_station_cycle io settings act st inp).events
          = l1 ++ CycleEvent.joinMeasurement :: l2 ∧
        CycleEvent.verdictApplied st.id ∈ l2) ∧
    (machineOn inp.machineAtStart = true → machineOn inp.machineAfterPress = true →
      CycleEvent.joinMeasurement ∈ (run_station_cycle io settings act st inp).events) := by
  unfold run_station_cycle
  cases h1 : machineOn inp.machineAtStart <;>
    cases h2 : machineOn inp.machineAfterPress <;>
    cases h3 : (measure_current inp.samples).1 <;>
    cases h4 : inp.waitChecks.any (fun r => !machineOn r) <;>
    simp [h1, h2, h3, h4]
  · exact ⟨[CycleEvent.spawnMeasurement, CycleEvent.servoCommand st.id 100,
      CycleEvent.servoCommand st.id 0], [CycleEvent.verdictApplied st.id],
      by simp, by simp⟩
  · exact ⟨[CycleEvent.spawnMeasurement, CycleEvent.servoCommand st.id 100,
      CycleEvent.servoCommand st.id 0],
      [CycleEvent.verdictApplied st.id, CycleEvent.safeStateCall],
      by simp, by simp⟩

/-- Witness for the amended C9: on a concrete completed cycle the join event
is in the trace. -/
theorem c9_amended_witness :
    CycleEvent.joinMeasurement ∈
      (run_station_cycle ioAll exSettings exArmed exStation exGoodInput).events :=
  (c9_amended_join_before_verdict ioAll exSettings exArmed exStation
    exGoodInput).2 (by decide) (by decide)

/-! ## Claim C1 -/

theorem run_station_cycle_connected (io : HWIO) (settings : SystemSettings)
    (act : ActuatorModule) (st : Station) (inp : StationInput) :
    (run_station_cycle io settings act st inp).actuator.connected
      = act.connected := by
  unfold run_station_cycle
  cases h1 : machineOn inp.machineAtStart <;>
    cases h2 : machineOn inp.machineAfterPress <;>
    cases h3 : (measure_current inp.samples).1 <;>
    cases h4 : inp.waitChecks.any (fun r => !machineOn r) <;>
    simp [h1, h2, h3, h4, set_safe_state_connected]

theorem run_stations_connected (io : HWIO) (settings : SystemSettings)
    (l : List (Station × StationInput)) (act : ActuatorModule) :
    (run_stations io settings act l).1.connected = act.connected := by
  induction l generalizing act with
  | nil => rfl
  | cons p rest ih =>
    unfold run_stations
    cases hb : (run_station_cycle io settings act p.1 p.2).breakLoop <;>
      simp [hb, ih, run_station_cycle_connected]

theorem enter_safe_if_needed_connected (io : HWIO) (act : ActuatorModule) :
    (enter_safe_if_needed io act).connected = act.connected := by
  unfold enter_safe_if_needed
  cases hs : act.safe_state_reached <;> simp [hs, set_safe_state_connected]

theorem enter_safe_if_needed_flag (io : HWIO) (act : ActuatorModule)
    (h : act.connected = true) :
    (enter_safe_if_needed io act).safe_state_reached = true := by
  unfold enter_safe_if_needed
  cases hs : act.safe_state_reached <;> simp [hs, set_safe_state_flag io act h]

theorem scheduler_iteration_connected (io : HWIO) (s : SchedState)
    (inp : IterInput) :
    (scheduler_iteration io s inp).actuator.connected
      = s.actuator.connected := by
  unfold scheduler_iteration
  cases hset : inp.settings with
  | none => rfl
  | some settings =>
    cases hm : machineOn inp.machineAtTop <;>
      cases he : (s.stations.filter (fun st => st.enabled)).isEmpty <;>
      cases hs : s.actuator.safe_state_reached <;>
      simp [hm, he, hs, enter_safe_if_needed_connected, run_stations_connected,
        reset_safe_state_connected]

theorem scheduler_run_connected (io : HWIO) (s : SchedState)
    (inps : List IterInput) :
    (scheduler_run io s inps).actuator.connected = s.actuator.connected := by
  induction inps generalizing s with
  | nil => rfl
  | cons inp rest ih =>
    unfold scheduler_run at ih ⊢
    rw [List.foldl_cons, ih, scheduler_iteration_connected]

/-- Claim C1: over every sequence of scheduler iterations on a connected
module, any iteration whose environment has the settings row present and
whose machine-state read is not `on` — which is implied whenever the machine
is not `on` for more than one full iteration, since the check sits at the top
of the iteration — ends with `safe_state_reached = true`: the flag and the
machine state never disagree for more than one scheduler iteration. -/
theorem c1_safe_flag_within_one_iteration (io : HWIO) (s0 : SchedState)
    (history : List IterInput) (inp : IterInput)
    (hconn : s0.actuator.connected = true)
    (hset : inp.settings.isSome = true)
    (hoff : machineOn inp.machineAtTop = false) :
    (scheduler_iteration io (scheduler_run io s0 history) inp).actuator.safe_state_reached
      = true := by
  have hc : (scheduler_run io s0 history).actuator.connected = true := by
    rw [scheduler_run_connected]; exact hconn
  obtain ⟨settings, hs⟩ := Option.isSome_iff_exists.mp hset
  unfold scheduler_iteration
  rw [hs]
  simp only [hoff, Bool.not_false, if_true]
  exact enter_safe_if_needed_flag io _ hc

/-- Witness for C1: a concrete armed, connected scheduler state reading
machine `off` at the top of an iteration reaches the safe state by the end
of that iteration. -/
theorem c1_witness :
    (scheduler_iteration ioAll
        (scheduler_run ioAll ⟨exArmed, [exStation]⟩ [])
        ⟨some exSettings, some MachineStateEnum.off, []⟩).actuator.safe_state_reached
      = true :=
  c1_safe_flag_within_one_iteration ioAll ⟨exArmed, [exStation]⟩ []
    ⟨some exSettings, some MachineStateEnum.off, []⟩ rfl rfl (by decide)

/-! ## Claim C2 -/

theorem voltage_check_step_dead (cutoff : ℚ) (s : MonitorState) (now v : ℚ) :
    voltage_check_step cutoff s now v
      = { s with supply_voltage := v, low_voltage_start := none } := by
  unfold voltage_check_step machine_state_str_eq_on
  simp

theorem monitor_run_machine_unchanged (cutoff : ℚ) (l : List (ℚ × ℚ))
    (s : MonitorState) :
    (monitor_run cutoff s l).machine_state = s.machine_state := by
  induction l generalizing s with
  | nil => rfl
  | cons p rest ih =>
    unfold monitor_run at ih ⊢
    rw [List.foldl_cons, voltage_check_step_dead, ih]

/-- Claim C2 describes the intended debounce but fails on the code: the
guard `machine_state == "on"` compares an `enum.Enum` member with a string,
which is always `False`, so the whole low-voltage branch is dead.  For every
cutoff, every starting state and every sequence of supply-voltage readings,
`monitor_status` leaves the machine state unchanged; in particular, with the
machine on, a 12 V cutoff and 10 V readings at 0 s and 6 s — more than 5
continuous seconds below cutoff — the machine stays on and the low-voltage
timer is never even started. -/
theorem c2_low_voltage_branch_dead (cutoff : ℚ) (l : List (ℚ × ℚ))
    (s : MonitorState) :
    (monitor_run cutoff s l).machine_state = s.machine_state ∧
    (monitor_run 12 ⟨MachineStateEnum.on, none, 13⟩
        [(0, 10), (6, 10)]).machine_state = MachineStateEnum.on ∧
    (monitor_run 12 ⟨MachineStateEnum.on, none, 13⟩
        [(0, 10), (6, 10)]).low_voltage_start = none :=
  ⟨monitor_run_machine_unchanged cutoff l s, by decide, by decide⟩

end KeyswitchTester
